import Mathlib

/-
Shallow embedding of the road-quality analysis backend (src/backend/app.py)
over exact rationals.  External HTTP providers (Nominatim place search,
Overpass geometry search) are modelled as environment values carrying either
a raised network exception or a parsed response; the numpy / math random
draws and the float trigonometric functions are modelled as environment
streams, so every claim quantifies over all possible provider and random
behaviours.
-/

namespace RoadEye

/-- A geographic point, `(latitude, longitude)`, as produced by the resolver. -/
abbrev Coord := ℚ × ℚ

/-- Outcome of one HTTP request made with the `requests` library: either the
call raised (network error, unparsable JSON body, ...) or it returned a
status code together with the parsed JSON body. -/
inductive Outcome (α : Type) : Type where
  | exn : Outcome α
  | resp (status : ℕ) (body : α) : Outcome α

/-- One parsed entry of the plain Nominatim search response used by tier 1
of `fetch_road_coordinates` (only `lat`/`lon` are read by the code). -/
structure NomSimple where
  lat : ℚ
  lon : ℚ
deriving DecidableEq

/-- One element of the Overpass response: the code only reads its
`geometry`, a list of `(lat, lon)` points. -/
structure OverpassElem where
  geometry : List Coord

/-- Parsed `geojson` field of a Nominatim `polygon_geojson=1` result.
Coordinates are in GeoJSON `[lon, lat]` axis order, exactly as the source
receives them.  `other` stands for any geometry type the code does not
branch on (e.g. `Point`). -/
inductive GeoJson : Type where
  | lineString (points : List (ℚ × ℚ)) : GeoJson
  | multiLineString (lines : List (List (ℚ × ℚ))) : GeoJson
  | polygon (rings : List (List (ℚ × ℚ))) : GeoJson
  | other : GeoJson

/-- Bounding box of a Nominatim result, `[south, north, west, east]`. -/
structure BBoxQ where
  south : ℚ
  north : ℚ
  west : ℚ
  east : ℚ

/-- One parsed entry of the `polygon_geojson=1` Nominatim response used by
`fallback_road_search`. -/
structure NomGeo where
  lat : ℚ
  lon : ℚ
  geojson : Option GeoJson
  boundingbox : Option BBoxQ

/-- Everything outside the program that the coordinate resolver consumes:
the three provider responses, the `np.random.uniform(-5, 5)` stream and the
(floating point) `math.cos`/`math.sin` of a direction in degrees, modelled
as arbitrary rational-valued functions. -/
structure GeoEnv where
  nominatim : Outcome (List NomSimple)
  overpass : Outcome (List OverpassElem)
  nominatimGeo : Outcome (List NomGeo)
  uniformRand : ℕ → ℚ
  cosDeg : ℚ → ℚ
  sinDeg : ℚ → ℚ

/-- Loop body of `generate_default_coordinates`: appends the current point,
then advances it by the (trig-projected) step and perturbs the direction by
the next `np.random.uniform(-5, 5)` draw. -/
def genDefaultAux (ge : GeoEnv) : ℕ → ℕ → ℚ → ℚ → ℚ → List Coord
  | 0, _, _, _, _ => []
  | n + 1, i, startLat, startLng, direction =>
    let dx := 0.0005 * ge.cosDeg direction
    let dy := 0.0005 * ge.sinDeg direction
    (startLat, startLng) ::
      genDefaultAux ge n (i + 1) (startLat + dy) (startLng + dx)
        (direction + ge.uniformRand i)

/-- `generate_default_coordinates` (app.py:456): the synthetic fallback path
of 20 points starting at the fixed Delhi reference location and heading
east with a randomly perturbed direction. -/
def generate_default_coordinates (ge : GeoEnv) : List Coord :=
  genDefaultAux ge 20 0 28.6139 77.2090 90

/-- `np.linspace a b num`: `num` evenly spaced samples from `a` to `b`. -/
def linspace (a b : ℚ) (num : ℕ) : List ℚ :=
  if num = 0 then []
  else if num = 1 then [a]
  else (List.range num).map (fun (i : ℕ) => a + (b - a) * (i : ℚ) / ((num : ℚ) - 1))

/-- `np.round`: round half to even, as numpy does. -/
def npRound (q : ℚ) : ℤ :=
  let f := ⌊q⌋
  let frac := q - (f : ℚ)
  if frac < 1 / 2 then f
  else if 1 / 2 < frac then f + 1
  else if f % 2 = 0 then f else f + 1

/-- The `indices = np.round(np.linspace(0, len - 1, 50)); [coords[i] for i
in indices]` down-sampling used when a raw geometry has more than 50
points. -/
def resample_even (coords : List Coord) : List Coord :=
  (linspace 0 ((coords.length : ℚ) - 1) 50).map
    (fun t => coords.getD (npRound t).toNat (0, 0))

/-- `np.interp x xp fp` at a single query point `x`, over the (sorted) list
of `(xp, fp)` sample pairs: clamp outside the sample range, interpolate
linearly between the bracketing samples inside it. -/
def interpPoint (x : ℚ) : List (ℚ × ℚ) → ℚ
  | [] => 0
  | [(_, f0)] => f0
  | (x0, f0) :: (x1, f1) :: rest =>
    if x ≤ x0 then f0
    else if x ≤ x1 then f0 + (f1 - f0) * (x - x0) / (x1 - x0)
    else interpPoint x ((x1, f1) :: rest)

/-- The linear-interpolation up-sampling of `fetch_road_coordinates`
(app.py:311-325): a normalized parameter `t` over the original points and a
denser 20-sample parameter `t_new`, with each coordinate axis interpolated
by `np.interp`. -/
def interp_to_twenty (coords : List Coord) : List Coord :=
  let t := linspace 0 1 coords.length
  let tNew := linspace 0 1 20
  tNew.map (fun x =>
    (interpPoint x (t.zip (coords.map Prod.fst)),
     interpPoint x (t.zip (coords.map Prod.snd))))

/-- Point-count normalization inlined in `fetch_road_coordinates`
(app.py:306-325): `> 50` points are resampled down to 50, `1..9` points are
interpolated up to 20, anything else is returned unchanged. -/
def normalize_tier1 (coords : List Coord) : List Coord :=
  if 50 < coords.length then resample_even coords
  else if coords.length < 10 ∧ 0 < coords.length then interp_to_twenty coords
  else coords

/-- `max(roads, key=lambda r: len(r.get("geometry", [])))`: the first
element whose geometry has maximal length. -/
def best_road (e : OverpassElem) (rest : List OverpassElem) : OverpassElem :=
  rest.foldl (fun b r => if b.geometry.length < r.geometry.length then r else b) e

/-- Coordinate extraction from the `geojson` field in
`fallback_road_search` (app.py:374-393), swapping `[lon, lat]` into
`(lat, lon)`.  `none` models the `IndexError` raised by
`geojson["coordinates"][0]` on a `Polygon` with no rings, which the
enclosing `except` turns into the default path; `other` geometry types
leave `coordinates` empty so control falls through to the bounding box. -/
def geojson_coords : GeoJson → Option (List Coord)
  | GeoJson.lineString points => some (points.map (fun p => (p.2, p.1)))
  | GeoJson.multiLineString lines => some (lines.flatten.map (fun p => (p.2, p.1)))
  | GeoJson.polygon (ring :: _) => some (ring.map (fun p => (p.2, p.1)))
  | GeoJson.polygon [] => none
  | GeoJson.other => some []

/-- The `len(coordinates) > 50` down-sampling of `fallback_road_search`
(app.py:396-399); note there is no up-sampling counterpart in this tier. -/
def limit_fifty (coords : List Coord) : List Coord :=
  if 50 < coords.length then resample_even coords else coords

/-- Bounding-box branch of `fallback_road_search` (app.py:405-436): a
20-point straight line through the box centroid along its longer axis. -/
def bbox_line (bb : BBoxQ) : List Coord :=
  let centerLat := (bb.north + bb.south) / 2
  let centerLon := (bb.east + bb.west) / 2
  let latRange := bb.north - bb.south
  let lonRange := bb.east - bb.west
  if latRange < lonRange then
    (List.range 20).map (fun (i : ℕ) => (centerLat, bb.west + ((i : ℚ) / 19) * lonRange))
  else
    (List.range 20).map (fun (i : ℕ) => (bb.south + ((i : ℚ) / 19) * latRange, centerLon))

/-- Single-point branch of `fallback_road_search` (app.py:439-450): a
20-point east-west line of 0.0005-degree steps around the result point. -/
def point_line (lat lon : ℚ) : List Coord :=
  (List.range 20).map (fun (i : ℕ) => (lat, lon + ((i : ℚ) - 10) * 0.0005))

/-- The part of `fallback_road_search` after the geojson branch produced no
coordinates: bounding box if present, otherwise the single-point line. -/
def fallback_after_geojson (result : NomGeo) : List Coord :=
  match result.boundingbox with
  | some bb => bbox_line bb
  | none => point_line result.lat result.lon

/-- `fallback_road_search` (app.py:339-454): re-query Nominatim with
`polygon_geojson=1`; use the returned geometry (capped at 50 points), else
a 20-point line from the bounding box, else a 20-point line around the
single result point; any exception or failed response yields the default
path. -/
def fallback_road_search (ge : GeoEnv) : List Coord :=
  match ge.nominatimGeo with
  | Outcome.exn => generate_default_coordinates ge
  | Outcome.resp status body =>
    if status ≠ 200 then generate_default_coordinates ge
    else
      match body with
      | [] => generate_default_coordinates ge
      | result :: _ =>
        match result.geojson with
        | some gj =>
          match geojson_coords gj with
          | none => generate_default_coordinates ge
          | some coords =>
            if coords ≠ [] then limit_fifty coords
            else fallback_after_geojson result
        | none => fallback_after_geojson result

/-- `fetch_road_coordinates` (app.py:229-337): tier-1 resolution through
Nominatim then Overpass.  A raised request / parse exception is caught by
the enclosing `except` and yields the default path; a non-200 or empty
response falls through to `fallback_road_search`.  The Overpass element
with the longest geometry wins and its point count is normalized. -/
def fetch_road_coordinates (ge : GeoEnv) : List Coord :=
  match ge.nominatim with
  | Outcome.exn => generate_default_coordinates ge
  | Outcome.resp status body =>
    if status ≠ 200 ∨ body = [] then fallback_road_search ge
    else
      match ge.overpass with
      | Outcome.exn => generate_default_coordinates ge
      | Outcome.resp status2 elements =>
        if status2 ≠ 200 then fallback_road_search ge
        else
          match elements with
          | [] => fallback_road_search ge
          | e :: rest =>
            let coords := normalize_tier1 (best_road e rest).geometry
            if coords ≠ [] then coords else fallback_road_search ge

/-- Discrete road condition verdict. -/
inductive Cond : Type where
  | good : Cond
  | fair : Cond
  | bad : Cond
deriving DecidableEq

/-- One YOLO detection box as consumed by the backend: its class id and its
confidence (the bbox coordinates are never used by the classification
logic). -/
structure Box where
  cls : ℤ
  conf : ℚ
deriving DecidableEq

/-- The class-id keys of the `defect_counts` dictionary built in
`process_video` (app.py:771-776), in first-occurrence order.  Only key
membership and the number of keys are ever consulted. -/
def defect_counts_keys (boxes : List Box) : List ℤ :=
  boxes.foldl (fun acc b => if b.cls ∈ acc then acc else acc ++ [b.cls]) []

/-- One iteration of the `for result in results` classification loop of
`process_video` (app.py:751-789) on a result whose box list is `boxes`,
with `rnd` the `np.random.random()` draw consumed by whichever branch
runs. -/
def classify_step (boxes : List Box) (rnd : ℚ) (confidence : ℚ) (condition : Cond) :
    ℚ × Cond :=
  if 0 < boxes.length then
    let keys := defect_counts_keys boxes
    if 3 ∈ keys ∨ 4 ∈ keys then (max confidence (0.8 + rnd * 0.2), Cond.bad)
    else if 2 ∈ keys then (max confidence (0.7 + rnd * 0.2), Cond.fair)
    else if 0 < keys.length then (max confidence (0.6 + rnd * 0.3), Cond.fair)
    else (max confidence (0.7 + rnd * 0.3), condition)
  else (confidence, condition)

/-- The full `for result in results` loop, threading the
`(confidence, condition)` accumulator initialised to `(0.0, 'good')`;
`r i` is the random draw available to the `i`-th iteration. -/
def classify_results (r : ℕ → ℚ) : List (List Box) → ℕ → ℚ × Cond → ℚ × Cond
  | [], _, acc => acc
  | boxes :: rest, i, acc =>
    classify_results r rest (i + 1) (classify_step boxes (r i) acc.1 acc.2)

/-- `np.random.choice(['good', 'fair', 'bad'], p=[0.7, 0.2, 0.1])` as the
inverse-CDF of a uniform draw `u` in `[0, 1)`. -/
def np_random_choice (u : ℚ) : Cond :=
  if u < 0.7 then Cond.good else if u < 0.9 then Cond.fair else Cond.bad

/-- Per-frame verdict of `process_video` (app.py:747-794): the
classification loop followed by the low-confidence override that redraws
the confidence from `[0.7, 1.0)` and the condition at random. -/
def frame_verdict (results : List (List Box)) (r : ℕ → ℚ) (ro cu : ℚ) : ℚ × Cond :=
  let c := classify_results r results 0 (0.0, Cond.good)
  if c.1 < 0.6 then (0.7 + ro * 0.3, np_random_choice cu) else c

/-- Everything outside the program that one sampled frame contributes:
whether `cap.read()` succeeded, the detector output (one box list per YOLO
result object; the detector returns exactly one result per image), and the
random draws consumed while classifying this frame. -/
structure FrameEnv where
  readOk : Bool
  results : List (List Box)
  branchRand : ℕ → ℚ
  overrideRand : ℚ
  choiceRand : ℚ

/-- The verdict `process_video` computes for a frame with environment `fe`. -/
def frame_env_verdict (fe : FrameEnv) : ℚ × Cond :=
  frame_verdict fe.results fe.branchRand fe.overrideRand fe.choiceRand

/-- One emitted road segment (app.py:810-822). -/
structure Seg where
  id : String
  startCoordinates : Coord
  endCoordinates : Coord
  condition : Cond
  confidence : ℚ
deriving DecidableEq

/-- The segment appended for `segment_id` (app.py:806-822), connecting
consecutive points of the resolved path and carrying the frame verdict. -/
def mk_segment (path : List Coord) (segmentId : ℕ) (v : ℚ × Cond) : Seg :=
  { id := "segment-" ++ toString segmentId
    startCoordinates := path.getD segmentId (0, 0)
    endCoordinates := path.getD (segmentId + 1) (0, 0)
    condition := v.2
    confidence := v.1 }

/-- `sample_rate = max(10, int(frame_count / 100))` (app.py:722). -/
def sample_rate (frameCount : ℕ) : ℕ := max 10 (frameCount / 100)

/-- `max_segments = min(len(road_coordinates) - 1, int(frame_count /
sample_rate))` (app.py:728), over ℤ because `len - 1` can be `-1` in the
source. -/
def max_segments (path : List Coord) (frameCount : ℕ) : ℤ :=
  min ((path.length : ℤ) - 1) ((frameCount : ℤ) / (sample_rate frameCount : ℤ))

/-- The `while current_frame < frame_count and segment_id < max_segments`
loop of `process_video` (app.py:731-833), paired with the frame index each
segment was classified at.  A failed `cap.read()` breaks out of the loop.
The fuel argument equals `max_segments - segment_id`, which bounds the
remaining iterations since `segment_id` increases by one per iteration. -/
def video_loop (frameCount s : ℕ) (path : List Coord) (env : ℕ → FrameEnv)
    (maxSeg : ℤ) : ℕ → ℕ → ℕ → List (ℕ × Seg)
  | 0, _, _ => []
  | fuel + 1, currentFrame, segmentId =>
    if currentFrame < frameCount ∧ (segmentId : ℤ) < maxSeg then
      if (env currentFrame).readOk then
        (currentFrame,
          mk_segment path segmentId (frame_env_verdict (env currentFrame))) ::
          video_loop frameCount s path env maxSeg fuel (currentFrame + s) (segmentId + 1)
      else []
    else []

/-- The frame-index / segment stream produced by the sampling loop for a
video of `frameCount` frames over the resolved `path`. -/
def process_segments (frameCount : ℕ) (path : List Coord) (env : ℕ → FrameEnv) :
    List (ℕ × Seg) :=
  video_loop frameCount (sample_rate frameCount) path env
    (max_segments path frameCount) (max_segments path frameCount).toNat 0 0

/-- The `road_segments` list the pipeline stores in the job result. -/
def road_segments (frameCount : ℕ) (path : List Coord) (env : ℕ → FrameEnv) :
    List Seg :=
  (process_segments frameCount path env).map Prod.snd

/-- The frame indices the sampler actually visits. -/
def visited_frames (frameCount : ℕ) (path : List Coord) (env : ℕ → FrameEnv) :
    List ℕ :=
  (process_segments frameCount path env).map Prod.fst

/-- The ordered per-frame verdicts of the visited frames. -/
def frame_verdicts (frameCount : ℕ) (path : List Coord) (env : ℕ → FrameEnv) :
    List (ℚ × Cond) :=
  (visited_frames frameCount path env).map (fun f => frame_env_verdict (env f))

/-- Lifecycle status of an analysis job. -/
inductive Status : Type where
  | processing : Status
  | completed : Status
  | failed : Status
deriving DecidableEq

/-- Everything outside the program one `process_video` worker consumes:
whether `cv2.VideoCapture` opened the file, the frame count, the geocoding
environment and the per-frame environments. -/
structure VideoEnv where
  openOk : Bool
  frameCount : ℕ
  geo : GeoEnv
  frames : ℕ → FrameEnv

/-- `process_video` (app.py:687-866) summarised as the sequence of status
writes it performs on its job record together with the segments it stores:
a failed open writes `failed` and returns (app.py:699-703); otherwise the
pipeline runs to the end and writes `completed` (app.py:855). -/
def process_video (ve : VideoEnv) : List Status × List Seg :=
  if ve.openOk then
    ([Status.completed],
      road_segments ve.frameCount (fetch_road_coordinates ve.geo) ve.frames)
  else ([Status.failed], [])

/-- The possible per-job sequences of status writes: a job submitted via
`upload_video` is created as `processing` and mutated only by its own
worker (app.py:655-671); a job id first seen by `analysis_status` is
created as a `processing` dummy and each `simulate_processing` thread
spawned for it writes `completed` (app.py:1027-1075). -/
inductive JobWrites : List Status → Prop
  | worker (ve : VideoEnv) : JobWrites (Status.processing :: (process_video ve).1)
  | dummy (n : ℕ) : JobWrites (Status.processing :: List.replicate n Status.completed)

/-- The status a poller observes after the first `k` writes of a job's
write sequence (before any write, the record does not exist; the creation
write is the first element of the sequence). -/
def status_at (writes : List Status) (k : ℕ) : Status :=
  (writes.take k).getLastD Status.processing

/-- A job record as stored in `active_analyses`, restricted to the fields
the status endpoint reads. -/
structure JobRec where
  status : Status
  progress : ℕ
  error : Option String
deriving DecidableEq

/-- `analysis_status` (app.py:1016-1084): returns the stored record's
`(status, progress, error)`; if the job id is unknown it first inserts a
dummy `processing` record with progress 10 (the debugging branch at
app.py:1027-1037) and reports that dummy. -/
def analysis_status (reg : List (String × JobRec)) (jobId : String) :
    List (String × JobRec) × (Status × ℕ × Option String) :=
  match List.lookup jobId reg with
  | some a => (reg, (a.status, a.progress, a.error))
  | none =>
    let dummy : JobRec := { status := Status.processing, progress := 10, error := none }
    (reg ++ [(jobId, dummy)], (dummy.status, dummy.progress, dummy.error))

/-- The detection list returned by the `/analyze` endpoint `analyze_image`
(app.py:568-584): all boxes of all results whose confidence exceeds the
0.1 threshold, in order. -/
def analyze_detections (results : List (List Box)) : List Box :=
  results.foldl
    (fun acc boxes => acc ++ boxes.filter (fun b => decide ((0.1 : ℚ) < b.conf))) []

/-- The confidence filter of `analyze_image` (app.py:577). -/
def above_threshold (b : Box) : Bool := decide ((0.1 : ℚ) < b.conf)

/-- Constant-zero random stream, used to instantiate environments at
concrete inputs. -/
def zeroRand : ℕ → ℚ := fun _ => 0

/-- Constant-zero stand-in for the trigonometric projections, used to
instantiate environments at concrete inputs. -/
def zeroTrig : ℚ → ℚ := fun _ => 0

/-- Default segment used with `List.getD`. -/
def segDefault : Seg := mk_segment [] 0 (0, Cond.good)

/-- Default `(frame, segment)` pair used with `List.getD`. -/
def pairDefault : ℕ × Seg := (0, segDefault)

/-- Environment in which every provider request raises. -/
def geoAllExn : GeoEnv :=
  { nominatim := Outcome.exn, overpass := Outcome.exn, nominatimGeo := Outcome.exn,
    uniformRand := zeroRand, cosDeg := zeroTrig, sinDeg := zeroTrig }

/-- Environment for the C1 counterexample: the plain Nominatim search
returns an empty result set (so tier 1 falls through to
`fallback_road_search`), and the `polygon_geojson` search returns a
`LineString` with a single raw point. -/
def geoOnePointLine : GeoEnv :=
  { nominatim := Outcome.resp 200 []
    overpass := Outcome.exn
    nominatimGeo := Outcome.resp 200
      [{ lat := 28.5, lon := 77.1,
         geojson := some (GeoJson.lineString [(77.1, 28.5)]), boundingbox := none }]
    uniformRand := zeroRand, cosDeg := zeroTrig, sinDeg := zeroTrig }

/-- Environment for the C2 counterexample: the tier-1 place-search request
raises a network error while the tier-2 `polygon_geojson` search would
succeed with a 10-point `LineString`. -/
def geoNetErrTier1 : GeoEnv :=
  { nominatim := Outcome.exn
    overpass := Outcome.exn
    nominatimGeo := Outcome.resp 200
      [{ lat := 28.5, lon := 77.1,
         geojson := some (GeoJson.lineString
           [(77.10, 28.50), (77.11, 28.51), (77.12, 28.52), (77.13, 28.53),
            (77.14, 28.54), (77.15, 28.55), (77.16, 28.56), (77.17, 28.57),
            (77.18, 28.58), (77.19, 28.59)]), boundingbox := none }]
    uniformRand := zeroRand, cosDeg := zeroTrig, sinDeg := zeroTrig }

/-- A frame environment with a readable frame and no detections. -/
def frameNoDets : FrameEnv :=
  { readOk := true, results := [], branchRand := zeroRand,
    overrideRand := 0, choiceRand := 0 }

/-- Per-frame environment stream used to instantiate the pipeline at
concrete inputs. -/
def framesNoDets : ℕ → FrameEnv := fun _ => frameNoDets

/-- A three-point path used to instantiate the sampling loop. -/
def pathThree : List Coord := [((0 : ℚ), (0 : ℚ)), (1, 1), (2, 2)]

/-- A worker environment whose video opens successfully. -/
def videoEnvOk : VideoEnv :=
  { openOk := true, frameCount := 0, geo := geoAllExn, frames := framesNoDets }

lemma linspace_length (a b : ℚ) (num : ℕ) : (linspace a b num).length = num := by
  unfold linspace
  split
  · simp_all
  · split
    · simp_all
    · simp

lemma resample_even_length (coords : List Coord) :
    (resample_even coords).length = 50 := by
  simp [resample_even, linspace_length]

lemma interp_to_twenty_length (coords : List Coord) :
    (interp_to_twenty coords).length = 20 := by
  simp [interp_to_twenty, linspace_length]

lemma genDefaultAux_length (ge : GeoEnv) :
    ∀ (n i : ℕ) (lat lng dir : ℚ), (genDefaultAux ge n i lat lng dir).length = n := by
  intro n
  induction n with
  | zero => intro i lat lng dir; simp [genDefaultAux]
  | succ m ih => intro i lat lng dir; simp [genDefaultAux, ih]

lemma generate_default_length (ge : GeoEnv) :
    (generate_default_coordinates ge).length = 20 := by
  simp [generate_default_coordinates, genDefaultAux_length]

lemma generate_default_head (ge : GeoEnv) :
    (generate_default_coordinates ge).head? = some (28.6139, 77.2090) := by
  simp [generate_default_coordinates, genDefaultAux]

lemma bbox_line_length (bb : BBoxQ) : (bbox_line bb).length = 20 := by
  unfold bbox_line
  dsimp only
  split <;> simp

lemma point_line_length (lat lon : ℚ) : (point_line lat lon).length = 20 := by
  simp [point_line]

lemma fallback_after_geojson_length (result : NomGeo) :
    (fallback_after_geojson result).length = 20 := by
  unfold fallback_after_geojson
  split
  · exact bbox_line_length _
  · exact point_line_length _ _

lemma limit_fifty_length_big (coords : List Coord) (h : 50 < coords.length) :
    (limit_fifty coords).length = 50 := by
  simp [limit_fifty, h, resample_even_length]

lemma limit_fifty_eq_of_le (coords : List Coord) (h : coords.length ≤ 50) :
    limit_fifty coords = coords := by
  have : ¬ 50 < coords.length := by omega
  simp [limit_fifty, this]

lemma limit_fifty_bounds (coords : List Coord) (h : coords ≠ []) :
    1 ≤ (limit_fifty coords).length ∧ (limit_fifty coords).length ≤ 50 := by
  have h1 : 1 ≤ coords.length := List.length_pos.mpr h
  by_cases h50 : 50 < coords.length
  · rw [limit_fifty_length_big coords h50]; omega
  · rw [limit_fifty_eq_of_le coords (by omega)]; omega

lemma normalize_tier1_length_big (coords : List Coord) (h : 50 < coords.length) :
    (normalize_tier1 coords).length = 50 := by
  simp [normalize_tier1, h, resample_even_length]

lemma normalize_tier1_length_small (coords : List Coord)
    (h1 : 1 ≤ coords.length) (h9 : coords.length ≤ 9) :
    (normalize_tier1 coords).length = 20 := by
  have hb : ¬ 50 < coords.length := by omega
  have hs : coords.length < 10 ∧ 0 < coords.length := by omega
  simp [normalize_tier1, hb, hs, interp_to_twenty_length]

lemma normalize_tier1_length_le (coords : List Coord) :
    (normalize_tier1 coords).length ≤ 50 := by
  unfold normalize_tier1
  split
  · simp [resample_even_length]
  · split
    · simp [interp_to_twenty_length]
    · omega

lemma fallback_bounds (ge : GeoEnv) :
    1 ≤ (fallback_road_search ge).length ∧ (fallback_road_search ge).length ≤ 50 := by
  unfold fallback_road_search
  have hdef : 1 ≤ (generate_default_coordinates ge).length ∧
      (generate_default_coordinates ge).length ≤ 50 := by
    rw [generate_default_length]; omega
  match hng : ge.nominatimGeo with
  | Outcome.exn => exact hdef
  | Outcome.resp status body =>
    dsimp only
    by_cases hs : status ≠ 200
    · rw [if_pos hs]; exact hdef
    · rw [if_neg hs]
      match body with
      | [] => exact hdef
      | result :: rest =>
        dsimp only
        have hafter : 1 ≤ (fallback_after_geojson result).length ∧
            (fallback_after_geojson result).length ≤ 50 := by
          rw [fallback_after_geojson_length]; omega
        match result.geojson with
        | none => exact hafter
        | some gj =>
          dsimp only
          match geojson_coords gj with
          | none => exact hdef
          | some coords =>
            dsimp only
            by_cases hne : coords ≠ []
            · rw [if_pos hne]; exact limit_fifty_bounds coords hne
            · rw [if_neg hne]; exact hafter

lemma fetch_bounds (ge : GeoEnv) :
    1 ≤ (fetch_road_coordinates ge).length ∧ (fetch_road_coordinates ge).length ≤ 50 := by
  unfold fetch_road_coordinates
  have hdef : 1 ≤ (generate_default_coordinates ge).length ∧
      (generate_default_coordinates ge).length ≤ 50 := by
    rw [generate_default_length]; omega
  have hfb := fallback_bounds ge
  match hn : ge.nominatim with
  | Outcome.exn => exact hdef
  | Outcome.resp status body =>
    dsimp only
    by_cases hs : status ≠ 200 ∨ body = []
    · rw [if_pos hs]; exact hfb
    · rw [if_neg hs]
      match ho : ge.overpass with
      | Outcome.exn => exact hdef
      | Outcome.resp status2 elements =>
        dsimp only
        by_cases hs2 : status2 ≠ 200
        · rw [if_pos hs2]; exact hfb
        · rw [if_neg hs2]
          match elements with
          | [] => exact hfb
          | e :: rest =>
            dsimp only
            by_cases hne : normalize_tier1 (best_road e rest).geometry ≠ []
            · rw [if_pos hne]
              exact ⟨List.length_pos.mpr hne, normalize_tier1_length_le _⟩
            · rw [if_neg hne]; exact hfb

lemma mem_defect_counts_keys_aux (c : ℤ) :
    ∀ (boxes : List Box) (acc : List ℤ),
      (c ∈ acc ∨ ∃ b ∈ boxes, b.cls = c) →
      c ∈ boxes.foldl (fun acc b => if b.cls ∈ acc then acc else acc ++ [b.cls]) acc := by
  intro boxes
  induction boxes with
  | nil => intro acc h; simpa using h
  | cons hd tl ih =>
    intro acc h
    simp only [List.foldl_cons]
    apply ih
    by_cases hmem : hd.cls ∈ acc
    · rw [if_pos hmem]
      rcases h with h | ⟨b, hb, hbc⟩
      · exact Or.inl h
      · rcases List.mem_cons.mp hb with rfl | hb2
        · exact Or.inl (hbc ▸ hmem)
        · exact Or.inr ⟨b, hb2, hbc⟩
    · rw [if_neg hmem]
      rcases h with h | ⟨b, hb, hbc⟩
      · exact Or.inl (List.mem_append_left _ h)
      · rcases List.mem_cons.mp hb with rfl | hb2
        · exact Or.inl (by simp [hbc])
        · exact Or.inr ⟨b, hb2, hbc⟩

lemma mem_defect_counts_keys (boxes : List Box) (b : Box) (hb : b ∈ boxes) :
    b.cls ∈ defect_counts_keys boxes :=
  mem_defect_counts_keys_aux b.cls boxes [] (Or.inr ⟨b, hb, rfl⟩)

/-- Each branch of `classify_step` draws a value in `[0.6, 1.0)` whenever
the underlying `np.random.random()` draw is in `[0, 1)`, so the running
confidence stays `0` or lands in `[0.6, 1.0)`. -/
lemma classify_step_inv (boxes : List Box) (rnd confidence : ℚ) (condition : Cond)
    (hrnd : 0 ≤ rnd ∧ rnd < 1)
    (hc : confidence = 0 ∨ (0.6 ≤ confidence ∧ confidence < 1)) :
    (classify_step boxes rnd confidence condition).1 = 0 ∨
      (0.6 ≤ (classify_step boxes rnd confidence condition).1 ∧
        (classify_step boxes rnd confidence condition).1 < 1) := by
  unfold classify_step
  split
  · have hd : ∀ d : ℚ, 0.6 ≤ d → d < 1 →
        (0.6 ≤ max confidence d ∧ max confidence d < 1) := by
      intro d hd1 hd2
      constructor
      · exact le_max_of_le_right hd1
      · rcases hc with rfl | ⟨h1, h2⟩
        · rw [max_eq_right (by linarith)]; exact hd2
        · exact max_lt h2 hd2
    dsimp only
    split
    · exact Or.inr (hd _ (by linarith [hrnd.1]) (by linarith [hrnd.2]))
    · split
      · exact Or.inr (hd _ (by linarith [hrnd.1]) (by linarith [hrnd.2]))
      · split
        · exact Or.inr (hd _ (by linarith [hrnd.1]) (by linarith [hrnd.2]))
        · exact Or.inr (hd _ (by linarith [hrnd.1]) (by linarith [hrnd.2]))
  · exact hc

lemma classify_results_inv (r : ℕ → ℚ) (hr : ∀ i, 0 ≤ r i ∧ r i < 1) :
    ∀ (results : List (List Box)) (i : ℕ) (acc : ℚ × Cond),
      (acc.1 = 0 ∨ (0.6 ≤ acc.1 ∧ acc.1 < 1)) →
      ((classify_results r results i acc).1 = 0 ∨
        (0.6 ≤ (classify_results r results i acc).1 ∧
          (classify_results r results i acc).1 < 1)) := by
  intro results
  induction results with
  | nil => intro i acc h; simpa [classify_results] using h
  | cons boxes rest ih =>
    intro i acc h
    simp only [classify_results]
    exact ih (i + 1) _ (classify_step_inv boxes (r i) acc.1 acc.2 (hr i) h)

/-- The final per-frame confidence always lies in `[0.6, 1.0)` when all
random draws are in `[0, 1)`. -/
lemma frame_verdict_conf (results : List (List Box)) (r : ℕ → ℚ) (ro cu : ℚ)
    (hr : ∀ i, 0 ≤ r i ∧ r i < 1) (hro : 0 ≤ ro ∧ ro < 1) :
    0.6 ≤ (frame_verdict results r ro cu).1 ∧ (frame_verdict results r ro cu).1 < 1 := by
  unfold frame_verdict
  have hinv := classify_results_inv r hr results 0 (0.0, Cond.good) (Or.inl (by norm_num))
  dsimp only
  split
  · constructor <;> [linarith [hro.1]; linarith [hro.2]]
  · rcases hinv with h0 | ⟨h1, h2⟩
    · simp_all
    · exact ⟨h1, h2⟩

/-- On the all-empty detection stream the classification loop leaves the
accumulator untouched. -/
lemma classify_results_all_empty (r : ℕ → ℚ) :
    ∀ (results : List (List Box)), (∀ bs ∈ results, bs = []) →
      ∀ (i : ℕ) (acc : ℚ × Cond), classify_results r results i acc = acc := by
  intro results
  induction results with
  | nil => intro _ i acc; simp [classify_results]
  | cons boxes rest ih =>
    intro h i acc
    have hb : boxes = [] := h boxes (List.mem_cons_self _ _)
    simp only [classify_results, hb, classify_step]
    rw [if_neg (by simp)]
    exact ih (fun bs hbs => h bs (List.mem_cons_of_mem _ hbs)) (i + 1) acc

lemma getD_map_of_lt {α β : Type} (f : α → β) (l : List α) (d : β) (d0 : α) :
    ∀ (k : ℕ), k < l.length → (l.map f).getD k d = f (l.getD k d0) := by
  induction l with
  | nil => intro k hk; simp at hk
  | cons a t ih =>
    intro k hk
    cases k with
    | zero => simp
    | succ k => simpa using ih k (by simpa using hk)

/-- Characterisation of the sampling loop: its `k`-th entry was produced at
frame `currentFrame + k * s` for segment id `segmentId + k`, both loop
guards held there, and the number of iterations is bounded by the remaining
segment budget. -/
lemma video_loop_spec (frameCount s : ℕ) (path : List Coord) (env : ℕ → FrameEnv)
    (maxSeg : ℤ) :
    ∀ (fuel currentFrame segmentId : ℕ),
      (video_loop frameCount s path env maxSeg fuel currentFrame segmentId).length
          ≤ (maxSeg - (segmentId : ℤ)).toNat
      ∧ ∀ k, k < (video_loop frameCount s path env maxSeg fuel currentFrame segmentId).length →
          (video_loop frameCount s path env maxSeg fuel currentFrame segmentId).getD k pairDefault
            = (currentFrame + k * s,
               mk_segment path (segmentId + k)
                 (frame_env_verdict (env (currentFrame + k * s))))
          ∧ currentFrame + k * s < frameCount
          ∧ (segmentId : ℤ) + (k : ℤ) < maxSeg := by
  intro fuel
  induction fuel with
  | zero =>
    intro currentFrame segmentId
    constructor
    · simp [video_loop]
    · intro k hk
      simp [video_loop] at hk
  | succ n ih =>
    intro currentFrame segmentId
    by_cases hg : currentFrame < frameCount ∧ ((segmentId : ℤ) < maxSeg)
    · by_cases hread : (env currentFrame).readOk
      · have hunf : video_loop frameCount s path env maxSeg (n + 1) currentFrame segmentId
            = (currentFrame,
                mk_segment path segmentId (frame_env_verdict (env currentFrame))) ::
              video_loop frameCount s path env maxSeg n (currentFrame + s) (segmentId + 1) := by
          simp only [video_loop]
          rw [if_pos hg, if_pos hread]
        have IH := ih (currentFrame + s) (segmentId + 1)
        rw [hunf]
        constructor
        · have h1 := IH.1
          simp only [List.length_cons]
          push_cast at h1 ⊢
          omega
        · intro k hk
          cases k with
          | zero =>
            refine ⟨by simp, by simpa using hg.1, by simpa using hg.2⟩
          | succ k =>
            have hk2 : k < (video_loop frameCount s path env maxSeg n
                (currentFrame + s) (segmentId + 1)).length := by
              simpa using hk
            have hK := IH.2 k hk2
            have e1 : currentFrame + s + k * s = currentFrame + (k + 1) * s := by ring
            have e2 : segmentId + 1 + k = segmentId + (k + 1) := by omega
            refine ⟨?_, ?_, ?_⟩
            · rw [List.getD_cons_succ, hK.1, e1, e2]
            · have h2 := hK.2.1
              rw [e1] at h2
              exact h2
            · have h3 := hK.2.2
              push_cast at h3 ⊢
              omega
      · constructor
        · simp [video_loop, hg, hread]
        · intro k hk
          simp [video_loop, hg, hread] at hk
    · constructor
      · simp [video_loop, hg]
      · intro k hk
        simp [video_loop, hg] at hk

lemma process_segments_length_le (frameCount : ℕ) (path : List Coord)
    (env : ℕ → FrameEnv) (h : 1 ≤ path.length) :
    ((process_segments frameCount path env).length : ℤ) ≤ (path.length : ℤ) - 1 := by
  have hspec := (video_loop_spec frameCount (sample_rate frameCount) path env
    (max_segments path frameCount) (max_segments path frameCount).toNat 0 0).1
  have hmin : max_segments path frameCount ≤ (path.length : ℤ) - 1 :=
    min_le_left _ _
  unfold process_segments
  omega

lemma process_segments_get (frameCount : ℕ) (path : List Coord) (env : ℕ → FrameEnv)
    (k : ℕ) (hk : k < (process_segments frameCount path env).length) :
    (process_segments frameCount path env).getD k pairDefault
      = (k * sample_rate frameCount,
         mk_segment path k (frame_env_verdict (env (k * sample_rate frameCount))))
      ∧ k * sample_rate frameCount < frameCount
      ∧ (k : ℤ) < max_segments path frameCount := by
  have hspec := (video_loop_spec frameCount (sample_rate frameCount) path env
    (max_segments path frameCount) (max_segments path frameCount).toNat 0 0).2 k
    (by simpa [process_segments] using hk)
  simpa [process_segments] using hspec

lemma status_at_le_one (rest : List Status) (k : ℕ) (hk : k ≤ 1) :
    status_at (Status.processing :: rest) k = Status.processing := by
  interval_cases k <;> rfl

lemma status_at_pair (t : Status) (k : ℕ) (hk : 2 ≤ k) :
    status_at [Status.processing, t] k = t := by
  unfold status_at
  rw [List.take_of_length_le (by simpa using hk)]
  rfl

lemma getLastD_replicate_completed :
    ∀ (m : ℕ), 1 ≤ m → ∀ (x : Status),
      (List.replicate m Status.completed).getLastD x = Status.completed := by
  intro m
  induction m with
  | zero => intro h; omega
  | succ n ih =>
    intro _ x
    rw [List.replicate_succ, List.getLastD_cons]
    cases n with
    | zero => simp
    | succ p => exact ih (by omega) _

lemma status_at_dummy (n k : ℕ) (h2 : 2 ≤ k) (hn : 1 ≤ n) :
    status_at (Status.processing :: List.replicate n Status.completed) k
      = Status.completed := by
  unfold status_at
  obtain ⟨m, rfl⟩ : ∃ m, k = m + 1 := ⟨k - 1, by omega⟩
  rw [List.take_succ_cons, List.getLastD_cons, List.take_replicate]
  exact getLastD_replicate_completed _ (by omega) _

/-- Claim C1 (corrected), counterexample: the claim asserts every resolver
output has between 2 and 50 points and that a raw source of 1-9 points
yields exactly 20; but when tier 1 finds nothing and the tier-2
`polygon_geojson` search returns a one-point `LineString`,
`fallback_road_search` returns that single point unchanged — the geometry
branch of tier 2 has no up-sampling step. -/
theorem C1_resolver_length_counterexample :
    fetch_road_coordinates geoOnePointLine = [(28.5, 77.1)]
    ∧ ¬ 2 ≤ (fetch_road_coordinates geoOnePointLine).length
    ∧ (fetch_road_coordinates geoOnePointLine).length ≠ 20 := by
  have hlen : (fetch_road_coordinates geoOnePointLine).length = 1 := rfl
  exact ⟨rfl, by omega, by omega⟩

/-- Claim C1 (corrected), amended: every resolver output has between 1 and
50 points; the tier-1 normalization resamples more than 50 raw points to
exactly 50 and interpolates 1-9 raw points to exactly 20, while the tier-2
geometry branch only caps at 50 and passes 50 or fewer raw points through
unchanged; all synthetic paths (bounding box, single point, default) have
exactly 20 points. -/
theorem C1_resolver_length_amended (ge : GeoEnv) :
    1 ≤ (fetch_road_coordinates ge).length
    ∧ (fetch_road_coordinates ge).length ≤ 50
    ∧ (∀ coords : List Coord, 50 < coords.length →
        (normalize_tier1 coords).length = 50)
    ∧ (∀ coords : List Coord, 1 ≤ coords.length → coords.length ≤ 9 →
        (normalize_tier1 coords).length = 20)
    ∧ (∀ coords : List Coord, 50 < coords.length →
        (limit_fifty coords).length = 50)
    ∧ (∀ coords : List Coord, coords.length ≤ 50 → limit_fifty coords = coords)
    ∧ (generate_default_coordinates ge).length = 20 :=
  ⟨(fetch_bounds ge).1, (fetch_bounds ge).2,
   fun coords h => normalize_tier1_length_big coords h,
   fun coords h1 h9 => normalize_tier1_length_small coords h1 h9,
   fun coords h => limit_fifty_length_big coords h,
   fun coords h => limit_fifty_eq_of_le coords h,
   generate_default_length ge⟩

/-- Claim C1, witness: the amended bounds evaluated at concrete inputs. -/
theorem C1_resolver_length_witness :
    1 ≤ (fetch_road_coordinates geoAllExn).length
    ∧ (normalize_tier1 (List.replicate 60 ((0 : ℚ), (0 : ℚ)))).length = 50
    ∧ (normalize_tier1 [((28.5 : ℚ), (77.1 : ℚ))]).length = 20 :=
  ⟨(C1_resolver_length_amended geoAllExn).1,
   (C1_resolver_length_amended geoAllExn).2.2.1 _ (by simp),
   (C1_resolver_length_amended geoAllExn).2.2.2.1 _ (by simp) (by simp)⟩

/-- Claim C2 (corrected), counterexample: the claim asserts every
recoverable provider failure cascades to the next tier, but a network
exception in the tier-1 place-search request jumps straight to the
synthetic default path even when tier 2 would have succeeded: here the
`polygon_geojson` search holds a healthy 10-point `LineString`, yet the
resolver returns the 20-point default path instead. -/
theorem C2_resolver_cascade_counterexample :
    fetch_road_coordinates geoNetErrTier1 = generate_default_coordinates geoNetErrTier1
    ∧ (fallback_road_search geoNetErrTier1).length = 10
    ∧ fetch_road_coordinates geoNetErrTier1 ≠ fallback_road_search geoNetErrTier1 := by
  have h1 : fetch_road_coordinates geoNetErrTier1
      = generate_default_coordinates geoNetErrTier1 := rfl
  have h2 : (fallback_road_search geoNetErrTier1).length = 10 := rfl
  refine ⟨h1, h2, ?_⟩
  intro h
  have hlen := congrArg List.length h
  rw [h1, generate_default_length, h2] at hlen
  omega

/-- Claim C2 (corrected), amended: the resolver never fails outward — it
returns a nonempty path for every provider behaviour; a tier-1 network
exception (and in particular the situation where every provider call
raises) yields the synthetic default path, which has exactly 20 points and
starts at the fixed reference location (28.6139, 77.2090). -/
theorem C2_resolver_totality_amended (ge : GeoEnv)
    (h1 : ge.nominatim = Outcome.exn) (h2 : ge.nominatimGeo = Outcome.exn) :
    fetch_road_coordinates ge = generate_default_coordinates ge
    ∧ fallback_road_search ge = generate_default_coordinates ge
    ∧ (∀ ge2 : GeoEnv, 1 ≤ (fetch_road_coordinates ge2).length)
    ∧ (generate_default_coordinates ge).length = 20
    ∧ (generate_default_coordinates ge).head? = some (28.6139, 77.2090) := by
  refine ⟨?_, ?_, fun ge2 => (fetch_bounds ge2).1,
    generate_default_length ge, generate_default_head ge⟩
  · unfold fetch_road_coordinates
    rw [h1]
  · unfold fallback_road_search
    rw [h2]

/-- Claim C2, witness: the amended behaviour at the all-failures
environment. -/
theorem C2_resolver_totality_witness :
    fetch_road_coordinates geoAllExn = generate_default_coordinates geoAllExn
    ∧ (generate_default_coordinates geoAllExn).length = 20 :=
  ⟨(C2_resolver_totality_amended geoAllExn rfl rfl).1,
   (C2_resolver_totality_amended geoAllExn rfl rfl).2.2.2.1⟩

/-- Claim C3 (confirmed): a sampled frame whose detection set contains a
classId-3 (Pothole) or classId-4 (Rutting) detection is classified
`bad` with confidence in `[0.8, 1.0)`, for any draw of the branch random
in `[0, 1)` (the detector produces one result object per frame). -/
theorem C3_pothole_rutting_bad (boxes : List Box) (r : ℕ → ℚ) (ro cu : ℚ)
    (hr : 0 ≤ r 0 ∧ r 0 < 1)
    (hb : ∃ b ∈ boxes, b.cls = 3 ∨ b.cls = 4) :
    (frame_verdict [boxes] r ro cu).2 = Cond.bad
    ∧ 0.8 ≤ (frame_verdict [boxes] r ro cu).1
    ∧ (frame_verdict [boxes] r ro cu).1 < 1 := by
  obtain ⟨b, hbmem, hbcls⟩ := hb
  have hne : 0 < boxes.length := List.length_pos.mpr (List.ne_nil_of_mem hbmem)
  have hkey : 3 ∈ defect_counts_keys boxes ∨ 4 ∈ defect_counts_keys boxes := by
    rcases hbcls with h3 | h4
    · exact Or.inl (h3 ▸ mem_defect_counts_keys boxes b hbmem)
    · exact Or.inr (h4 ▸ mem_defect_counts_keys boxes b hbmem)
  have hstep : classify_results r [boxes] 0 (0.0, Cond.good)
      = (max 0.0 (0.8 + r 0 * 0.2), Cond.bad) := by
    simp only [classify_results]
    unfold classify_step
    rw [if_pos hne]
    dsimp only
    rw [if_pos hkey]
  have hmax : max (0.0 : ℚ) (0.8 + r 0 * 0.2) = 0.8 + r 0 * 0.2 :=
    max_eq_right (by linarith [hr.1])
  unfold frame_verdict
  dsimp only
  rw [hstep, hmax]
  rw [if_neg (by dsimp only; linarith [hr.1])]
  exact ⟨rfl, by dsimp only; linarith [hr.1], by dsimp only; linarith [hr.2]⟩

/-- Claim C3, witness: a single 50%-confidence pothole detection. -/
theorem C3_pothole_rutting_bad_witness :
    (frame_verdict [[{ cls := 3, conf := 0.5 }]] zeroRand 0 0).2 = Cond.bad
    ∧ 0.8 ≤ (frame_verdict [[{ cls := 3, conf := 0.5 }]] zeroRand 0 0).1
    ∧ (frame_verdict [[{ cls := 3, conf := 0.5 }]] zeroRand 0 0).1 < 1 :=
  C3_pothole_rutting_bad [{ cls := 3, conf := 0.5 }] zeroRand 0 0
    (by constructor <;> norm_num [zeroRand])
    ⟨{ cls := 3, conf := 0.5 }, by simp, Or.inl rfl⟩

/-- Claim C4 (corrected), counterexample: on a frame with no detections
the accumulated confidence stays 0, so the `confidence < 0.6` override
fires and draws the condition at random — with the categorical draw at
0.8 the frame is classified `fair`, not `good` as the claim states. -/
theorem C4_no_detection_counterexample :
    frame_verdict [[]] zeroRand 0 0.8 = (0.7, Cond.fair)
    ∧ (frame_verdict [[]] zeroRand 0 0.8).2 ≠ Cond.good := by
  have h : frame_verdict [[]] zeroRand 0 0.8 = (0.7, Cond.fair) := by
    norm_num [frame_verdict, classify_results, classify_step, np_random_choice, zeroRand]
  exact ⟨h, by rw [h]; decide⟩

/-- Claim C4 (corrected), amended: for a frame with no detections the
override always fires; the confidence is re-drawn from `[0.7, 1.0)` and
the condition is drawn at random from good/fair/bad with weights
0.7/0.2/0.1 (so it is `good` only when the categorical draw falls in the
good bucket, not always). -/
theorem C4_no_detection_amended (results : List (List Box)) (r : ℕ → ℚ) (ro cu : ℚ)
    (hempty : ∀ bs ∈ results, bs = []) (hro : 0 ≤ ro ∧ ro < 1) :
    frame_verdict results r ro cu = (0.7 + ro * 0.3, np_random_choice cu)
    ∧ 0.7 ≤ (frame_verdict results r ro cu).1
    ∧ (frame_verdict results r ro cu).1 < 1 := by
  have hcl := classify_results_all_empty r results hempty 0 (0.0, Cond.good)
  unfold frame_verdict
  dsimp only
  rw [hcl]
  rw [if_pos (by norm_num)]
  exact ⟨rfl, by dsimp only; linarith [hro.1], by dsimp only; linarith [hro.2]⟩

/-- Claim C4, witness: the amended verdict at a concrete no-detection
frame. -/
theorem C4_no_detection_witness :
    frame_verdict [[]] zeroRand 0 0 = (0.7 + 0 * 0.3, np_random_choice 0)
    ∧ 0.7 ≤ (frame_verdict [[]] zeroRand 0 0).1 :=
  ⟨(C4_no_detection_amended [[]] zeroRand 0 0 (by simp) (by norm_num)).1,
   (C4_no_detection_amended [[]] zeroRand 0 0 (by simp) (by norm_num)).2.1⟩

lemma analyze_detections_aux :
    ∀ (results : List (List Box)) (acc : List Box),
      results.foldl
          (fun acc boxes => acc ++ boxes.filter (fun b => decide ((0.1 : ℚ) < b.conf))) acc
        = acc ++ results.flatten.filter above_threshold := by
  intro results
  induction results with
  | nil => intro acc; simp
  | cons hd tl ih =>
    intro acc
    simp only [List.foldl_cons]
    rw [ih]
    simp [List.filter_append, List.append_assoc, above_threshold]
    rfl

lemma analyze_detections_eq (results : List (List Box)) :
    analyze_detections results = results.flatten.filter above_threshold := by
  unfold analyze_detections
  simpa using analyze_detections_aux results []

/-- Claim C5 (corrected), counterexample: the video pipeline's classifier
applies no confidence threshold — a single pothole detection at confidence
0.05 (below 0.1) flips the frame verdict from `good` to `bad`, even though
the `/analyze` endpoint's filter would have dropped it entirely. -/
theorem C5_threshold_counterexample :
    analyze_detections [[{ cls := 3, conf := 0.05 }]] = []
    ∧ frame_verdict [[{ cls := 3, conf := 0.05 }]] zeroRand 0 0 = (0.8, Cond.bad)
    ∧ frame_verdict [analyze_detections [[{ cls := 3, conf := 0.05 }]]] zeroRand 0 0
        = (0.7, Cond.good)
    ∧ (frame_verdict [[{ cls := 3, conf := 0.05 }]] zeroRand 0 0).2
        ≠ (frame_verdict [analyze_detections [[{ cls := 3, conf := 0.05 }]]] zeroRand 0 0).2 := by
  have ha : analyze_detections [[{ cls := 3, conf := 0.05 }]] = [] := by
    norm_num [analyze_detections, List.filter]
  have h1 : frame_verdict [[{ cls := 3, conf := 0.05 }]] zeroRand 0 0 = (0.8, Cond.bad) := by
    norm_num [frame_verdict, classify_results, classify_step, defect_counts_keys, zeroRand]
  have h2 : frame_verdict [analyze_detections [[{ cls := 3, conf := 0.05 }]]] zeroRand 0 0
      = (0.7, Cond.good) := by
    rw [ha]
    norm_num [frame_verdict, classify_results, classify_step, np_random_choice, zeroRand]
  refine ⟨ha, h1, h2, ?_⟩
  rw [h1, h2]
  decide

/-- Claim C5 (corrected), amended: the 0.1 threshold exists only in the
single-image `/analyze` endpoint, whose returned detection list keeps
exactly the detections with confidence strictly above 0.1; the video
pipeline's per-frame classifier consumes the unfiltered detector output,
so its verdict can depend on sub-threshold detections. -/
theorem C5_threshold_amended (results : List (List Box)) :
    analyze_detections results = results.flatten.filter above_threshold
    ∧ (∀ b ∈ analyze_detections results, (0.1 : ℚ) < b.conf)
    ∧ (∀ b ∈ results.flatten, (0.1 : ℚ) < b.conf → b ∈ analyze_detections results) := by
  refine ⟨analyze_detections_eq results, ?_, ?_⟩
  · intro b hb
    rw [analyze_detections_eq] at hb
    have := List.of_mem_filter hb
    simpa [above_threshold] using this
  · intro b hb hconf
    rw [analyze_detections_eq]
    exact List.mem_filter.mpr ⟨hb, by simpa [above_threshold] using hconf⟩

/-- Claim C5, witness: an above-threshold detection is kept while its
sub-threshold sibling is dropped. -/
theorem C5_threshold_witness :
    { cls := 0, conf := 0.5 : Box }
      ∈ analyze_detections [[{ cls := 0, conf := 0.5 }, { cls := 1, conf := 0.05 }]] :=
  (C5_threshold_amended [[{ cls := 0, conf := 0.5 }, { cls := 1, conf := 0.05 }]]).2.2
    _ (by simp) (by norm_num)

/-- Claim C6 (confirmed): for every frame count the sampler's rate is
`max(10, frameCount / 100)` with integer division, and the visited frame
indices are `0, sampleRate, 2 * sampleRate, ...` — the `k`-th visited index
is `k * sampleRate`, the sequence is strictly increasing, and every visited
index is below the frame count. -/
theorem C6_frame_sampler (frameCount : ℕ) (path : List Coord) (env : ℕ → FrameEnv) :
    sample_rate frameCount = max 10 (frameCount / 100)
    ∧ (∀ k, k < (visited_frames frameCount path env).length →
        (visited_frames frameCount path env).getD k 0 = k * sample_rate frameCount)
    ∧ List.Pairwise (· < ·) (visited_frames frameCount path env)
    ∧ (∀ x ∈ visited_frames frameCount path env, x < frameCount) := by
  have hget : ∀ k, (hk : k < (visited_frames frameCount path env).length) →
      (visited_frames frameCount path env).getD k 0 = k * sample_rate frameCount
      ∧ k * sample_rate frameCount < frameCount := by
    intro k hk
    have hk2 : k < (process_segments frameCount path env).length := by
      simpa [visited_frames] using hk
    have h := process_segments_get frameCount path env k hk2
    constructor
    · unfold visited_frames
      rw [getD_map_of_lt Prod.fst _ _ pairDefault k hk2, h.1]
    · exact h.2.1
  have hs : 0 < sample_rate frameCount := by
    unfold sample_rate
    omega
  refine ⟨rfl, fun k hk => (hget k hk).1, ?_, ?_⟩
  · rw [List.pairwise_iff_getElem]
    intro i j hi hj hij
    have hgi : (visited_frames frameCount path env)[i] = i * sample_rate frameCount := by
      rw [← List.getD_eq_getElem _ 0 hi]
      exact (hget i hi).1
    have hgj : (visited_frames frameCount path env)[j] = j * sample_rate frameCount := by
      rw [← List.getD_eq_getElem _ 0 hj]
      exact (hget j hj).1
    rw [hgi, hgj]
    exact (Nat.mul_lt_mul_right hs).mpr hij
  · intro x hx
    obtain ⟨k, hk, hkx⟩ := List.mem_iff_getElem.mp hx
    have h1 := (hget k hk).1
    rw [List.getD_eq_getElem _ 0 hk] at h1
    rw [← hkx, h1]
    exact (hget k hk).2

/-- Claim C6, witness: a 25-frame video over a 3-point path visits frames
`[0, 10]`; the second visited index is `1 * sample_rate 25`. -/
theorem C6_frame_sampler_witness :
    (visited_frames 25 pathThree framesNoDets).getD 1 0 = 1 * sample_rate 25 :=
  (C6_frame_sampler 25 pathThree framesNoDets).2.1 1 (by decide)

/-- Claim C7 (confirmed): for every resolved path and per-frame verdict
sequence the loop emits at most `min(len(path) - 1, len(verdicts))`
segments; segment `k` connects `path[k]` to `path[k + 1]` and carries the
`k`-th verdict, and consecutive segments share their junction point. -/
theorem C7_segment_builder (ge : GeoEnv) (frameCount : ℕ) (env : ℕ → FrameEnv)
    (path : List Coord) (hpath : path = fetch_road_coordinates ge) :
    ((road_segments frameCount path env).length : ℤ)
        ≤ min ((path.length : ℤ) - 1) ((frame_verdicts frameCount path env).length : ℤ)
    ∧ (∀ k, k < (road_segments frameCount path env).length →
        ((road_segments frameCount path env).getD k segDefault).startCoordinates
            = path.getD k (0, 0)
        ∧ ((road_segments frameCount path env).getD k segDefault).endCoordinates
            = path.getD (k + 1) (0, 0)
        ∧ (((road_segments frameCount path env).getD k segDefault).confidence,
            ((road_segments frameCount path env).getD k segDefault).condition)
            = (frame_verdicts frameCount path env).getD k (0, Cond.good))
    ∧ (∀ k, k + 1 < (road_segments frameCount path env).length →
        ((road_segments frameCount path env).getD k segDefault).endCoordinates
          = ((road_segments frameCount path env).getD (k + 1) segDefault).startCoordinates) := by
  have hone : 1 ≤ path.length := by
    rw [hpath]
    exact (fetch_bounds ge).1
  have hlen_rs : (road_segments frameCount path env).length
      = (process_segments frameCount path env).length := by
    simp [road_segments]
  have hlen_vf : (visited_frames frameCount path env).length
      = (process_segments frameCount path env).length := by
    simp [visited_frames]
  have hlen_fv : (frame_verdicts frameCount path env).length
      = (process_segments frameCount path env).length := by
    simp [frame_verdicts, hlen_vf]
  have hseg : ∀ k, (hk : k < (road_segments frameCount path env).length) →
      (road_segments frameCount path env).getD k segDefault
        = mk_segment path k
            (frame_env_verdict (env (k * sample_rate frameCount))) := by
    intro k hk
    have hk2 : k < (process_segments frameCount path env).length := by
      rwa [hlen_rs] at hk
    unfold road_segments
    rw [getD_map_of_lt Prod.snd _ _ pairDefault k hk2,
      (process_segments_get frameCount path env k hk2).1]
  have hfv : ∀ k, (hk : k < (road_segments frameCount path env).length) →
      (frame_verdicts frameCount path env).getD k (0, Cond.good)
        = frame_env_verdict (env (k * sample_rate frameCount)) := by
    intro k hk
    have hk2 : k < (process_segments frameCount path env).length := by
      rwa [hlen_rs] at hk
    have hkv : k < (visited_frames frameCount path env).length := by
      rwa [hlen_vf]
    unfold frame_verdicts
    rw [getD_map_of_lt _ _ _ 0 k hkv]
    congr 1
    unfold visited_frames
    rw [getD_map_of_lt Prod.fst _ _ pairDefault k hk2,
      (process_segments_get frameCount path env k hk2).1]
  refine ⟨?_, ?_, ?_⟩
  · have h1 := process_segments_length_le frameCount path env hone
    rw [hlen_rs, hlen_fv]
    exact le_min h1 (le_refl _)
  · intro k hk
    rw [hseg k hk, hfv k hk]
    unfold mk_segment
    exact ⟨rfl, rfl, rfl⟩
  · intro k hk
    have hk1 : k < (road_segments frameCount path env).length := by omega
    rw [hseg k hk1, hseg (k + 1) hk]
    unfold mk_segment
    rfl

/-- Claim C7, witness: the first two segments of a 25-frame video over the
default resolved path share their junction point. -/
theorem C7_segment_builder_witness :
    ((road_segments 25 (fetch_road_coordinates geoAllExn) framesNoDets).getD 0
        segDefault).endCoordinates
      = ((road_segments 25 (fetch_road_coordinates geoAllExn) framesNoDets).getD 1
        segDefault).startCoordinates :=
  (C7_segment_builder geoAllExn 25 framesNoDets _ rfl).2.2 0 (by decide)

/-- Claim C8 (confirmed): once a job's status leaves `processing` it is
terminal — along every possible per-job sequence of status writes, any
status observed after the record stops reporting `processing` persists
unchanged at every later observation point. -/
theorem C8_terminal_status (writes : List Status) (h : JobWrites writes) (i j : ℕ)
    (hij : i ≤ j) (hterm : status_at writes i ≠ Status.processing) :
    status_at writes j = status_at writes i := by
  cases h with
  | worker ve =>
    have hi2 : 2 ≤ i := by
      by_contra hi
      exact hterm (status_at_le_one _ i (by omega))
    have hw : (process_video ve).1 = [Status.completed]
        ∨ (process_video ve).1 = [Status.failed] := by
      unfold process_video
      split
      · exact Or.inl rfl
      · exact Or.inr rfl
    rcases hw with hw | hw <;> rw [hw] at hterm ⊢ <;>
      rw [status_at_pair _ i hi2, status_at_pair _ j (by omega)]
  | dummy n =>
    have hi2 : 2 ≤ i := by
      by_contra hi
      exact hterm (status_at_le_one _ i (by omega))
    have hn : 1 ≤ n := by
      by_contra hn
      have h0 : n = 0 := by omega
      subst h0
      apply hterm
      unfold status_at
      rw [List.take_of_length_le (by simp; omega)]
      rfl
    rw [status_at_dummy n i hi2 hn, status_at_dummy n j (by omega) hn]

/-- Claim C8, witness: a successfully completed worker job still reports
`completed` at a later observation point. -/
theorem C8_terminal_status_witness :
    status_at (Status.processing :: (process_video videoEnvOk).1) 5
      = status_at (Status.processing :: (process_video videoEnvOk).1) 2 :=
  C8_terminal_status _ (JobWrites.worker videoEnvOk) 2 5 (by omega)
    (by rw [show status_at (Status.processing :: (process_video videoEnvOk).1) 2
          = Status.completed from rfl]
        decide)

/-- Claim C9 (corrected), counterexample: the status operation is not
read-only — querying an id that is absent from the registry inserts a
dummy `processing` record with progress 10, so the registry changes. -/
theorem C9_status_readonly_counterexample :
    (analysis_status [] "missing-job").1
      = [("missing-job", { status := Status.processing, progress := 10, error := none })]
    ∧ (analysis_status [] "missing-job").1 ≠ [] := by
  have h : (analysis_status [] "missing-job").1
      = [("missing-job", { status := Status.processing, progress := 10, error := none })] :=
    rfl
  exact ⟨h, by rw [h]; simp⟩

/-- Claim C9 (corrected), amended: the status operation is read-only only
for ids present in the registry — then it leaves the registry unchanged
and reports the stored record's status, progress and error; for an absent
id it inserts a dummy `processing` record instead. -/
theorem C9_status_readonly_amended (reg : List (String × JobRec)) (jobId : String)
    (jr : JobRec) (h : List.lookup jobId reg = some jr) :
    analysis_status reg jobId = (reg, (jr.status, jr.progress, jr.error)) := by
  unfold analysis_status
  rw [h]

/-- Claim C9, witness: querying a present id leaves the registry unchanged. -/
theorem C9_status_readonly_witness :
    analysis_status
        [("job-1", { status := Status.completed, progress := 99, error := none })] "job-1"
      = ([("job-1", { status := Status.completed, progress := 99, error := none })],
         (Status.completed, 99, none)) :=
  C9_status_readonly_amended
    [("job-1", { status := Status.completed, progress := 99, error := none })] "job-1"
    { status := Status.completed, progress := 99, error := none } (by decide)

/-- Claim C10 (confirmed): every road segment the pipeline emits has
confidence in `[0.6, 1.0)`, for any detector output and any random draws
in `[0, 1)`: the low-confidence override re-draws from `[0.7, 1.0)` and
every kept draw lies in `[0.6, 1.0)`. -/
theorem C10_segment_confidence (frameCount : ℕ) (path : List Coord)
    (env : ℕ → FrameEnv)
    (hbr : ∀ n i, 0 ≤ (env n).branchRand i ∧ (env n).branchRand i < 1)
    (hor : ∀ n, 0 ≤ (env n).overrideRand ∧ (env n).overrideRand < 1) :
    ∀ seg ∈ road_segments frameCount path env,
      0.6 ≤ seg.confidence ∧ seg.confidence < 1 := by
  intro seg hseg
  obtain ⟨k, hk, hkeq⟩ := List.mem_iff_getElem.mp hseg
  have hk2 : k < (process_segments frameCount path env).length := by
    simpa [road_segments] using hk
  have hgd : (road_segments frameCount path env).getD k segDefault
      = mk_segment path k
          (frame_env_verdict (env (k * sample_rate frameCount))) := by
    unfold road_segments
    rw [getD_map_of_lt Prod.snd _ _ pairDefault k hk2,
      (process_segments_get frameCount path env k hk2).1]
  have hsegeq : seg = mk_segment path k
      (frame_env_verdict (env (k * sample_rate frameCount))) := by
    rw [← hkeq, ← List.getD_eq_getElem _ segDefault hk]
    exact hgd
  have hconf := frame_verdict_conf
    (env (k * sample_rate frameCount)).results
    (env (k * sample_rate frameCount)).branchRand
    (env (k * sample_rate frameCount)).overrideRand
    (env (k * sample_rate frameCount)).choiceRand
    (hbr _) (hor _)
  rw [hsegeq]
  exact hconf

/-- Claim C10, witness: the first segment of a concrete run has confidence
in `[0.6, 1.0)`. -/
theorem C10_segment_confidence_witness :
    0.6 ≤ ((road_segments 25 pathThree framesNoDets).getD 0 segDefault).confidence
    ∧ ((road_segments 25 pathThree framesNoDets).getD 0 segDefault).confidence < 1 :=
  C10_segment_confidence 25 pathThree framesNoDets
    (fun n i => by constructor <;> norm_num [framesNoDets, frameNoDets, zeroRand])
    (fun n => by constructor <;> norm_num [framesNoDets, frameNoDets])
    _
    (by rw [List.getD_eq_getElem _ segDefault (by decide)]
        exact List.getElem_mem _)

end RoadEye
